import Mathlib

/-
  Shallow embedding of the OpenImageIO texture-system core
  (src/libtexture/texfile.cpp) and verification of the spec claims.

  Conventions:
  - C float computations are embedded over the rationals; every concrete
    input used in a theorem is chosen so that the float computation is
    exact (or, for the one out-of-range test, so that the branch taken is
    unaffected by the representation error of the literal).
  - C int is embedded as Int; byte counts and buffer indices as Nat.
  - Pointer-addressed output buffers are embedded as total functions
    (Nat to Rat for the result array, Int to Rat for per-lane alpha),
    updated functionally; the C by-reference mutation of TextureOptions is
    embedded as explicit state passing (the function returns the updated
    options record).
  - Fields of the source that no claim touches (the worldtocamera and
    worldtoscreen matrices, statistics, stderr diagnostics, asserts) are
    omitted from the record types; nothing below depends on them.
-/

namespace TexSys

/-- Wrap modes, in the declaration order of TextureOptions::Wrap
(texture.h; the header is not in the sources, the order is fixed by the
wrap_type_name table in texfile.cpp). -/
inductive Wrap where
  | WrapDefault
  | WrapBlack
  | WrapClamp
  | WrapPeriodic
  | WrapMirror
deriving DecidableEq

/-- Texture formats, in the declaration order fixed by the
texture_format_name table in texfile.cpp. -/
inductive TexFormat where
  | TexFormatUnknown
  | TexFormatTexture
  | TexFormatTexture3d
  | TexFormatShadow
  | TexFormatCubeFaceShadow
  | TexFormatVolumeShadow
  | TexFormatLatLongEnv
  | TexFormatCubeFaceEnv
deriving DecidableEq

/-- Modelled from the spec: the CubeLayout enumeration of texture_pvt.h is
not in the sources.  The spec lists the layouts ThreeByTwo, OneBySix and
Unknown; the source additionally names the enumerator CubeLast, which by
the repository convention visible in texfile.cpp (TexFormatLast and
WrapLast are one-past-the-end sentinels used as loop bounds, lines 140 and
238) is a sentinel distinct from CubeUnknown. -/
inductive CubeLayout where
  | CubeUnknown
  | CubeThreeByTwo
  | CubeOneBySix
  | CubeLast
deriving DecidableEq

/-- Modelled from the spec: ParamBaseType of paramtype.h is not in the
sources; only the base types the claims touch are represented. -/
inductive PBaseType where
  | PT_INT
  | PT_FLOAT
  | PT_STRING
  | PT_MATRIX
deriving DecidableEq

/-- Modelled from the spec: one stored metadata value (paramtype.h is not
in the sources).  Ints, floats and strings cover every attribute the
claims touch. -/
inductive AttrVal where
  | ival (i : Int)
  | fval (q : ℚ)
  | sval (s : String)
deriving DecidableEq

/-- Modelled from the spec: an ImageIOParameter (imageio.h is not in the
sources): a named metadata attribute with a base type, a value count and
the stored values. -/
structure ImageIOParameter where
  name : String
  type : PBaseType
  nvalues : Int
  data : List AttrVal
deriving DecidableEq

/-- Modelled from the spec: ParamType of paramtype.h (a base type plus an
array length; the one-argument constructor used in texfile.cpp defaults
the array length to 1). -/
structure ParamType where
  basetype : PBaseType
  arraylen : Int
deriving DecidableEq

/-- Modelled from the spec: the fields of ImageIOFormatSpec (imageio.h is
not in the sources) that texfile.cpp reads: pixel and tile geometry,
channel count, and the metadata attribute list. -/
structure ImageSpec where
  width : Int
  height : Int
  depth : Int
  full_width : Int
  full_height : Int
  tile_width : Int
  tile_height : Int
  tile_depth : Int
  nchannels : Int
  attributes : List ImageIOParameter
deriving DecidableEq

/-- Modelled from the spec: ImageIOFormatSpec::find_attribute returns the
first attribute with the given name. -/
def find_attribute (spec : ImageSpec) (dataname : String) :
    Option ImageIOParameter :=
  (spec.attributes.find? (fun p => p.name = dataname))

/-- Modelled from the spec: ImageIOFormatSpec::tile_pixels is the number
of pixels of one tile (the spec fixes the tile buffer size as
tile_width times tile_height times tile_depth times channels times 4). -/
def tile_pixels (spec : ImageSpec) : Int :=
  spec.tile_width * spec.tile_height * spec.tile_depth

/-- Modelled from the spec: typesize of paramtype.h; PT_FLOAT (the only
base type the tile path uses) occupies 4 bytes. -/
def typesize (t : PBaseType) : Nat :=
  match t with
  | .PT_FLOAT => 4
  | .PT_INT => 4
  | .PT_STRING => 8
  | .PT_MATRIX => 64

/-- decode_wrapmode (texfile.cpp, lines 137-144): case-sensitive match of
a wrap name against the wrap_type_name table; unknown strings yield
WrapDefault. -/
def decode_wrapmode (s : String) : Wrap :=
  if s = "default" then .WrapDefault
  else if s = "black" then .WrapBlack
  else if s = "clamp" then .WrapClamp
  else if s = "periodic" then .WrapPeriodic
  else if s = "mirror" then .WrapMirror
  else .WrapDefault

/-- parse_wrapmodes (texfile.cpp, lines 148-163): the characters before
the first comma name the s wrap; the remainder after the comma names the
t wrap; with no comma both share one name. -/
def parse_wrapmodes (s : String) : Wrap × Wrap :=
  let sw := s.takeWhile (fun c => c ≠ ',')
  let rest := s.drop sw.length
  let tw := if rest.isEmpty then sw else rest.drop 1
  (decode_wrapmode sw, decode_wrapmode tw)

/-- The textureformat attribute string is matched case-sensitively against
the texture_format_name table (texfile.cpp, lines 234-243); m_texformat is
preset to TexFormatTexture and only overwritten on a match. -/
def texformat_of_name (s : String) : TexFormat :=
  if s = "unknown" then .TexFormatUnknown
  else if s = "Plain Texture" then .TexFormatTexture
  else if s = "Volume Texture" then .TexFormatTexture3d
  else if s = "Shadow" then .TexFormatShadow
  else if s = "CubeFace Shadow" then .TexFormatCubeFaceShadow
  else if s = "Volume Shadow" then .TexFormatVolumeShadow
  else if s = "LatLong Environment" then .TexFormatLatLongEnv
  else if s = "CubeFace Environment" then .TexFormatCubeFaceEnv
  else .TexFormatTexture

/-- texture_type_name table (texfile.cpp, lines 120-126), indexed by
TexFormat. -/
def texture_type_name_of (t : TexFormat) : String :=
  match t with
  | .TexFormatUnknown => "unknown"
  | .TexFormatTexture => "Plain Texture"
  | .TexFormatTexture3d => "Volume Texture"
  | .TexFormatShadow => "Shadow"
  | .TexFormatCubeFaceShadow => "Shadow"
  | .TexFormatVolumeShadow => "Shadow"
  | .TexFormatLatLongEnv => "Environment"
  | .TexFormatCubeFaceEnv => "Environment"

/-- texture_format_name table (texfile.cpp, lines 110-116), indexed by
TexFormat. -/
def texture_format_name_of (t : TexFormat) : String :=
  match t with
  | .TexFormatUnknown => "unknown"
  | .TexFormatTexture => "Plain Texture"
  | .TexFormatTexture3d => "Volume Texture"
  | .TexFormatShadow => "Shadow"
  | .TexFormatCubeFaceShadow => "CubeFace Shadow"
  | .TexFormatVolumeShadow => "Volume Shadow"
  | .TexFormatLatLongEnv => "LatLong Environment"
  | .TexFormatCubeFaceEnv => "CubeFace Environment"

/-- Modelled from the spec: the reader-side state of an open ImageInput
(imageio.h is not in the sources).  texfile.cpp only reads and moves the
current subimage cursor. -/
structure Reader where
  cur_subimage : Int
deriving DecidableEq

/-- The fields of TextureFile (declared in texture_pvt.h, initialized by
the constructor at texfile.cpp lines 167-176) that the claims touch.
m_input is the reader handle (none embeds a null scoped_ptr). -/
structure TextureFile where
  input : Option Reader
  broken : Bool
  used : Bool
  spec : List ImageSpec
  texformat : TexFormat
  swrap : Wrap
  twrap : Wrap
  cubelayout : CubeLayout
  y_up : Bool
deriving DecidableEq

/-- The environment a call of TextureFile::open runs against: whether
ImageInput::create finds a reader, whether the reader opens, the spec of
the first subimage, the specs the seek_subimage loop collects, and the
reader format name. -/
structure OpenEnv where
  create_ok : Bool
  open_ok : Bool
  firstSpec : ImageSpec
  restSpecs : List ImageSpec
  format_name : String
deriving DecidableEq

/-- The textureformat parse of TextureFile::open (texfile.cpp, lines
234-243): the attribute must be a one-valued string; m_texformat stays
TexFormatTexture otherwise. -/
def decode_texformat (spec0 : ImageSpec) : TexFormat :=
  match find_attribute spec0 "textureformat" with
  | some p =>
    if p.type = PBaseType.PT_STRING ∧ p.nvalues = 1 then
      match p.data with
      | [AttrVal.sval s] => texformat_of_name s
      | _ => .TexFormatTexture
    else .TexFormatTexture
  | none => .TexFormatTexture

/-- The wrapmodes parse of TextureFile::open (texfile.cpp, lines 245-249):
a one-valued string attribute overwrites the wrap pair, which the
constructor preset to WrapBlack. -/
def decode_wrappair (spec0 : ImageSpec) (dflt : Wrap × Wrap) : Wrap × Wrap :=
  match find_attribute spec0 "wrapmodes" with
  | some p =>
    if p.type = PBaseType.PT_STRING ∧ p.nvalues = 1 then
      match p.data with
      | [AttrVal.sval s] => parse_wrapmodes s
      | _ => dflt
    else dflt
  | none => dflt

/-- TextureFile::open (texfile.cpp, lines 187-278).  Already-open and
already-broken files return unchanged; a failed ImageInput::create or a
failed reader open marks the file broken (releasing the reader); a
successful reopen of a file whose specs were already read returns after
use(); the very first successful open collects all subimage specs,
parses textureformat and wrapmodes, and detects the cube layout and the
y-up flag.  The incr_open_files call on the registry counter is modelled
in the registry embedding below; the worldtocamera and worldtoscreen
matrix parses are omitted (no claim reads them). -/
def openOp (env : OpenEnv) (f : TextureFile) : TextureFile :=
  if f.input.isSome then f
  else if f.broken then f
  else if env.create_ok = false then { f with broken := true }
  else if env.open_ok = false then { f with broken := true }
  else
    -- use(): m_used set on every access
    let f1 := { f with input := some { cur_subimage := 0 }, used := true }
    if f1.spec.length ≠ 0 then f1
    else
      let specs := env.firstSpec :: env.restSpecs
      -- after the do-while seek loop the reader sits on the last subimage
      let f2 := { f1 with
        spec := specs,
        input := some { cur_subimage := ((specs.length - 1 : Nat) : Int) } }
      let spec0 := env.firstSpec
      let tf := decode_texformat spec0
      let wpair := decode_wrappair spec0 (f2.swrap, f2.twrap)
      let yup := tf = TexFormat.TexFormatCubeFaceEnv ∧
                 env.format_name = "openexr"
      let layout :=
        if tf = TexFormat.TexFormatCubeFaceEnv then
          let w := max spec0.full_width spec0.tile_width
          let h := max spec0.full_height spec0.tile_height
          if spec0.width = 3 * w ∧ spec0.height = 2 * h then
            CubeLayout.CubeThreeByTwo
          else if spec0.width = w ∧ spec0.height = 6 * h then
            CubeLayout.CubeOneBySix
          else CubeLayout.CubeLast
        else f2.cubelayout
      { f2 with
        texformat := tf, swrap := wpair.1, twrap := wpair.2,
        y_up := decide yup, cubelayout := layout }

/-- The TextureFile the constructor builds before its open() call
(texfile.cpp, lines 167-176). -/
def freshFile : TextureFile :=
  { input := none, broken := false, used := true, spec := [],
    texformat := .TexFormatTexture, swrap := .WrapBlack,
    twrap := .WrapBlack, cubelayout := .CubeUnknown, y_up := false }

/-- The TextureFile constructor: initializer list, then open(). -/
def newTextureFile (env : OpenEnv) : TextureFile :=
  openOp env freshFile

/-- TextureFile::release (texfile.cpp, lines 295-306): the two-phase
closer.  A used file only loses its used flag; an unused open file closes
its reader (the decr_open_files call on the registry counter is modelled
in the registry embedding below); otherwise nothing happens. -/
def release (f : TextureFile) : TextureFile :=
  if f.used then { f with used := false }
  else if f.input.isSome then { f with input := none, used := false }
  else f

/-- Outcome of TextureFile::read_tile: either the bool the source
returns, or the crash of dereferencing a null m_input. -/
inductive ReadResult where
  | crash
  | ret (ok : Bool)
deriving DecidableEq

/-- TextureFile::read_tile (texfile.cpp, lines 282-291): calls open(),
then unconditionally dereferences m_input to query current_subimage —
a null-pointer dereference when the file is broken (open() returned
without producing a reader).  Otherwise it seeks to the requested level
if needed and returns the reader read outcome (readOk). -/
def read_tile (env : OpenEnv) (readOk : Bool) (level : Int)
    (f : TextureFile) : ReadResult × TextureFile :=
  let g := openOp env f
  match g.input with
  | none => (ReadResult.crash, g)
  | some r =>
    let g2 := if r.cur_subimage ≠ level
              then { g with input := some { cur_subimage := level } }
              else g
    (ReadResult.ret readOk, g2)

/-- One operation on a TextureFile, with the environment it runs in. -/
inductive FileOp where
  | openO (env : OpenEnv)
  | readTileO (env : OpenEnv) (readOk : Bool) (level : Int)
  | releaseO

/-- State transition of one TextureFile operation. -/
def fileStep (op : FileOp) (f : TextureFile) : TextureFile :=
  match op with
  | .openO env => openOp env f
  | .readTileO env ok lvl => (read_tile env ok lvl f).2
  | .releaseO => release f

/-- Run a sequence of TextureFile operations. -/
def runOps (ops : List FileOp) (f : TextureFile) : TextureFile :=
  match ops with
  | [] => f
  | op :: rest => runOps rest (fileStep op f)

/-- Projection of one registry entry onto the fields
TextureSystemImpl::check_max_files touches: the used flag and whether the
reader is open. -/
structure FileEntry where
  used : Bool
  opened : Bool
deriving DecidableEq

/-- TextureFile::release as it acts on a registry entry (texfile.cpp,
lines 295-306), together with whether the reader was closed (the case
that calls decr_open_files). -/
def releaseEntry (e : FileEntry) : FileEntry × Bool :=
  if e.used then ({ e with used := false }, false)
  else if e.opened then ({ used := false, opened := false }, true)
  else (e, false)

/-- The registry state check_max_files runs over: the filename map (entry
order of std::map iteration), the open-file counter, the configured
bound, and the sweep cursor (an index; files.length plays the part of the
end iterator). -/
structure Registry where
  files : List FileEntry
  open_files : Nat
  max_open_files : Nat
  sweep : Nat
deriving DecidableEq

/-- One iteration of the check_max_files loop body (texfile.cpp, lines
378-383): wrap the cursor to the beginning when it sits at the end, then
release the pointed-to entry.  Note the source never advances the cursor
past the entry it released. -/
def sweepStep (r : Registry) : Registry :=
  let cursor := if r.files.length ≤ r.sweep then 0 else r.sweep
  match r.files.get? cursor with
  | some e =>
    let rel := releaseEntry e
    { r with
      files := r.files.set cursor rel.1,
      sweep := cursor,
      open_files := if rel.2 then r.open_files - 1 else r.open_files }
  | none => { r with sweep := cursor }

/-- TextureSystemImpl::check_max_files (texfile.cpp, lines 374-384) with
explicit fuel: while open_files is at least max_open_files, run one sweep
iteration; some r means the while loop exited with state r, none means
the fuel ran out before the loop condition turned false. -/
def check_max_files_fuel (fuel : Nat) (r : Registry) : Option Registry :=
  match fuel with
  | 0 => none
  | n + 1 =>
    if r.max_open_files ≤ r.open_files
    then check_max_files_fuel n (sweepStep r)
    else some r

/-- TileID (texture_pvt.h, modelled from the spec: file reference, MIP
level and tile origin; equal iff all components match).  The file
reference is embedded as a numeric identity. -/
structure TileID where
  file : Nat
  level : Int
  x : Int
  y : Int
  z : Int
deriving DecidableEq

/-- The Tile fields the cache accounting reads: its id, the byte size of
the texel buffer, and the validity and used flags. -/
structure Tile where
  id : TileID
  size : Nat
  valid : Bool
  used : Bool
deriving DecidableEq

/-- Tile::Tile (texfile.cpp, lines 310-323): the texel buffer is resized
to spec.tile_pixels() times spec.nchannels times typesize(PT_FLOAT)
bytes; a read failure only prints a diagnostic (m_valid stays true). -/
def mkTile (spec : ImageSpec) (id : TileID) : Tile :=
  { id := id,
    size := (tile_pixels spec).toNat * spec.nchannels.toNat *
            typesize PBaseType.PT_FLOAT,
    valid := true, used := true }

/-- The tile-cache state of TextureSystemImpl: the TileID-to-Tile map and
the configured memory budget in MiB (init() sets 50, texfile.cpp line
345). -/
structure TileCacheState where
  tilecache : List (TileID × Tile)
  max_memory_MB : Nat
deriving DecidableEq

/-- Lookup in the tilecache map. -/
def cacheFind (st : TileCacheState) (id : TileID) : Option Tile :=
  (st.tilecache.find? (fun p => p.1 = id)).map (fun p => p.2)

/-- TextureSystemImpl::find_tile (texfile.cpp, lines 388-403): on a hit
return the cached tile; on a miss construct the Tile and insert it.  The
source performs no memory accounting and no eviction on this path. -/
def find_tile (spec : ImageSpec) (st : TileCacheState) (id : TileID) :
    Tile × TileCacheState :=
  match cacheFind st id with
  | some t => (t, st)
  | none =>
    let t := mkTile spec id
    (t, { st with tilecache := (id, t) :: st.tilecache })

/-- Total bytes of the tile buffers held by the cache. -/
def cacheBytes (st : TileCacheState) : Nat :=
  (st.tilecache.map (fun p => p.2.size)).sum

/-- Outcome of TextureSystemImpl::gettextureinfo: notfound embeds a false
return (no byte of the output buffer is written on any false path of the
source); written embeds a true return with the listed values copied out;
writtenReinterp embeds the true return of the branch at texfile.cpp lines
459-463, which copies the stored values through an int reinterpretation
of their float bit patterns (a bit-level operation with no rational
counterpart, recorded symbolically). -/
inductive GetInfoResult where
  | notfound
  | written (vals : List AttrVal)
  | writtenReinterp (vals : List AttrVal)
deriving DecidableEq

/-- TextureSystemImpl::gettextureinfo (texfile.cpp, lines 407-467).  The
file resolution through find_texturefile is embedded by the found and
broken arguments; texformat and spec stand for the resolved file. -/
def gettextureinfo (found : Bool) (broken : Bool) (texformat : TexFormat)
    (spec : ImageSpec) (dataname : String) (datatype : ParamType) :
    GetInfoResult :=
  if found = false then .notfound
  else if broken then .notfound
  else if dataname = "resolution" ∧ datatype = ⟨.PT_INT, 2⟩ then
    .written [.ival spec.width, .ival spec.height]
  else if dataname = "texturetype" ∧ datatype = ⟨.PT_STRING, 1⟩ then
    .written [.sval (texture_type_name_of texformat)]
  else if dataname = "textureformat" ∧ datatype = ⟨.PT_STRING, 1⟩ then
    .written [.sval (texture_format_name_of texformat)]
  else if dataname = "channels" ∧ datatype = ⟨.PT_INT, 1⟩ then
    .written [.ival spec.nchannels]
  else if dataname = "channels" ∧ datatype = ⟨.PT_FLOAT, 1⟩ then
    .written [.fval (spec.nchannels : ℚ)]
  else
    match find_attribute spec dataname with
    | some p =>
      if p.nvalues = datatype.arraylen then
        if p.type = datatype.basetype then .written p.data
        else if p.type = PBaseType.PT_FLOAT ∧
                datatype.basetype = PBaseType.PT_INT then
          -- the guard of texfile.cpp line 459: stored FLOAT, requested
          -- INT, despite the comment above it describing the converse
          .writtenReinterp p.data
        else .notfound
      else .notfound
    | none => .notfound

/-- Functional update of a Nat-indexed buffer. -/
def upd (f : Nat → ℚ) (i : Nat) (v : ℚ) : Nat → ℚ :=
  fun n => if n = i then v else f n

/-- Functional update of an Int-indexed (per-lane) buffer. -/
def updI (f : Int → ℚ) (i : Int) (v : ℚ) : Int → ℚ :=
  fun n => if n = i then v else f n

/-- The TextureOptions fields texture() reads and writes (texture.h is
not in the sources; fields modelled from the spec, section 4.E).  The
per-lane fill VaryingRef is embedded as a lane-indexed value function;
the alpha VaryingRef as the alphaSet flag (false embeds a null
reference) with the referenced buffer passed separately. -/
structure TextureOpts where
  firstchannel : Int
  nchannels : Int
  swrap : Wrap
  twrap : Wrap
  fill : Int → ℚ
  alphaSet : Bool
  actualchannels : Int

/-- Imath::clamp. -/
def iclamp (v lo hi : Int) : Int :=
  if v < lo then lo else if hi < v then hi else v

/-- floorfrac (fmath.h is not in the sources; modelled from the spec:
split into integer floor and fractional part).  Floor of a rational via
floor division of numerator by denominator. -/
def floorQ (x : ℚ) : Int :=
  Int.fdiv x.num (x.den : Int)

/-- Modelled from the spec: the reader contract fills a tile buffer
row-major and channel-interleaved, so the buffer byte the source indexes
as data[(t * tile_width + s) * nchannels + c] holds channel c of the
texel at (x0 + s, y0 + t), where (x0, y0) is the tile origin.  The
underlying image is embedded as the texel function tex. -/
def tileData (spec : ImageSpec) (tex : Int → Int → Int → ℚ)
    (x0 y0 : Int) : Nat → ℚ :=
  fun idx =>
    let nch := spec.nchannels.toNat
    let pix := idx / nch
    let ch := idx % nch
    let sx := pix % spec.tile_width.toNat
    let sy := pix / spec.tile_width.toNat
    tex (x0 + (sx : Int)) (y0 + (sy : Int)) (ch : Int)

/-- The channel copy loop of texture_lookup (texfile.cpp, lines 614-615):
result[c] = data[firstchannel + c] for c below actualchannels, with data
already offset by offset * nchannels. -/
def copyChannels (result : Nat → ℚ) (data : Nat → ℚ) (base dbase n : Nat) :
    Nat → ℚ :=
  match n with
  | 0 => result
  | m + 1 => copyChannels (upd result (base + m) (data (dbase + m)))
               data base dbase m

/-- TextureSystemImpl::texture_lookup (texfile.cpp, lines 553-635).
The derivative footprint values of lines 565-568 are computed but unused
by the placeholder and are omitted.  base is the offset the caller
already applied to the result pointer (texture() passes
result + i * nchannels, line 544); line 569 offsets by
index * nchannels again.  Writes:
lines 570-571 store the raw (s, t); an out-of-range integer coordinate
stores 1 in channel 0 and returns (lines 592-595, wrap is ignored);
otherwise the single texel at (sint, tint) is copied from its tile and,
when the alpha reference is set, the channel after the last actual one
goes to alpha[index]. -/
def texture_lookup (spec : ImageSpec) (tex : Int → Int → Int → ℚ)
    (opts : TextureOpts) (index : Int) (s_in t_in : ℚ)
    (base : Nat) (result : Nat → ℚ) (alphaBuf : Int → ℚ) :
    (Nat → ℚ) × (Int → ℚ) :=
  let b := base + (index * opts.nchannels).toNat
  let result := upd result (b + 0) s_in
  let result := upd result (b + 1) t_in
  let s := s_in * (spec.width : ℚ) - 1/2
  let t := t_in * (spec.height : ℚ) - 1/2
  let sint := floorQ s
  let tint := floorQ t
  if sint < 0 ∨ spec.width ≤ sint ∨ tint < 0 ∨ spec.height ≤ tint then
    (upd result (b + 0) 1, alphaBuf)
  else
    let tile_s : Nat := sint.toNat &&& (spec.tile_width - 1).toNat
    let tile_t : Nat := tint.toNat &&& (spec.tile_height - 1).toNat
    let data := tileData spec tex (sint - (tile_s : Int))
                  (tint - (tile_t : Int))
    let offset : Nat := tile_t * spec.tile_width.toNat + tile_s
    let dbase := offset * spec.nchannels.toNat + opts.firstchannel.toNat
    let result := copyChannels result data b dbase opts.actualchannels.toNat
    let alphaBuf :=
      if opts.alphaSet
      then updI alphaBuf index
             (data (dbase + opts.actualchannels.toNat))
      else alphaBuf
    (result, alphaBuf)

/-- Write v into the n consecutive buffer slots starting at start. -/
def fillFrom (result : Nat → ℚ) (start : Nat) (n : Nat) (v : ℚ) :
    Nat → ℚ :=
  match n with
  | 0 => result
  | m + 1 => fillFrom (upd result start v) (start + 1) m v

/-- The missing-or-broken-file loop of TextureSystemImpl::texture
(texfile.cpp, lines 484-492): for i from firstactive for cnt lanes, an
active lane writes the fill into result[off + c] for c below nchannels
and, when the alpha reference is set, into alpha[i]; the result pointer
advances by nchannels on every iteration, active or not, so off is the
offset from the result base, not i * nchannels.  The unsubscripted
VaryingRef read in `result[c] = options.fill` is modelled from the spec
as the fill value of the lane (varyingref.h is not in the sources). -/
def brokenLanes (C : Nat) (runflags : Int → Bool) (fill : Int → ℚ)
    (alphaSet : Bool) (i : Int) (cnt : Nat) (off : Nat)
    (result : Nat → ℚ) (alphaBuf : Int → ℚ) : (Nat → ℚ) × (Int → ℚ) :=
  match cnt with
  | 0 => (result, alphaBuf)
  | m + 1 =>
    let result2 := if runflags i then fillFrom result off C (fill i)
                   else result
    let alphaBuf2 := if runflags i ∧ alphaSet = true
                     then updI alphaBuf i (fill i) else alphaBuf
    brokenLanes C runflags fill alphaSet (i + 1) m (off + C) result2
      alphaBuf2

/-- The fill loop for channels the file lacks (texfile.cpp, lines
506-514): for each active lane i write the fill of the lane into
result[i * nchannels + c] for c from actualchannels up to nchannels. -/
def tailLanes (opts : TextureOpts) (runflags : Int → Bool) (i : Int)
    (cnt : Nat) (result : Nat → ℚ) : Nat → ℚ :=
  match cnt with
  | 0 => result
  | m + 1 =>
    let result2 :=
      if runflags i then
        fillFrom result
          ((i * opts.nchannels).toNat + opts.actualchannels.toNat)
          (opts.nchannels - opts.actualchannels).toNat (opts.fill i)
      else result
    tailLanes opts runflags (i + 1) m result2

/-- The alpha fill loop for a file without the alpha channel
(texfile.cpp, lines 517-518): every lane of the window, active or not,
receives the fill of the lane into alpha[i]. -/
def alphaAllLanes (fill : Int → ℚ) (i : Int) (cnt : Nat)
    (alphaBuf : Int → ℚ) : Int → ℚ :=
  match cnt with
  | 0 => alphaBuf
  | m + 1 => alphaAllLanes fill (i + 1) m (updI alphaBuf i (fill i))

/-- The per-lane dispatch loop of texture (texfile.cpp, lines 533-548):
each active lane calls texture_lookup with the result pointer already
offset by i * nchannels. -/
def lanesLoop (spec : ImageSpec) (tex : Int → Int → Int → ℚ)
    (opts : TextureOpts) (runflags : Int → Bool) (s t : Int → ℚ)
    (i : Int) (cnt : Nat) (result : Nat → ℚ) (alphaBuf : Int → ℚ) :
    (Nat → ℚ) × (Int → ℚ) :=
  match cnt with
  | 0 => (result, alphaBuf)
  | m + 1 =>
    let p := if runflags i
             then texture_lookup spec tex opts i (s i) (t i)
                    ((i * opts.nchannels).toNat) result alphaBuf
             else (result, alphaBuf)
    lanesLoop spec tex opts runflags s t (i + 1) m p.1 p.2

/-- The view of a resolved TextureFile that texture() reads: the broken
flag, the declared wrap pair, the level-0 spec, and the texel data. -/
structure TextureFileView where
  broken : Bool
  swrap : Wrap
  twrap : Wrap
  spec : ImageSpec
  tex : Int → Int → Int → ℚ

/-- TextureSystemImpl::texture (texfile.cpp, lines 471-549).  tf embeds
the find_texturefile result (none for a file that could not be
resolved).  Returns the updated options (the C++ mutates the caller
options in place through the reference parameter), the result buffer and
the alpha buffer. -/
def texture (tf : Option TextureFileView) (opts : TextureOpts)
    (runflags : Int → Bool) (firstactive lastactive : Int)
    (s t : Int → ℚ) (result : Nat → ℚ) (alphaBuf : Int → ℚ) :
    TextureOpts × (Nat → ℚ) × (Int → ℚ) :=
  let cnt := (lastactive - firstactive + 1).toNat
  match tf with
  | none =>
    let p := brokenLanes opts.nchannels.toNat runflags opts.fill
               opts.alphaSet firstactive cnt 0 result alphaBuf
    (opts, p.1, p.2)
  | some f =>
    if f.broken then
      let p := brokenLanes opts.nchannels.toNat runflags opts.fill
                 opts.alphaSet firstactive cnt 0 result alphaBuf
      (opts, p.1, p.2)
    else
      let opts1 := { opts with
        swrap := if opts.swrap = Wrap.WrapDefault then f.swrap
                 else opts.swrap,
        twrap := if opts.twrap = Wrap.WrapDefault then f.twrap
                 else opts.twrap }
      let actual := iclamp (f.spec.nchannels - opts1.firstchannel) 0
                      opts1.nchannels
      let opts2 := { opts1 with actualchannels := actual }
      let result1 := if actual < opts2.nchannels
                     then tailLanes opts2 runflags firstactive cnt result
                     else result
      let oa := if opts2.alphaSet = true ∧ actual + 1 < opts2.nchannels
                then ({ opts2 with alphaSet := false },
                      alphaAllLanes opts2.fill firstactive cnt alphaBuf)
                else (opts2, alphaBuf)
      if actual < 1 then (oa.1, result1, oa.2)
      else
        let p := lanesLoop f.spec f.tex oa.1 runflags s t firstactive cnt
                   result1 oa.2
        (oa.1, p.1, p.2)

/-
  Concrete inputs used by the evaluation theorems.
-/

/-- A 2 by 2 single-tile one-channel spec (spec section 8, scenarios 3
and 5). -/
def spec2 : ImageSpec :=
  { width := 2, height := 2, depth := 1, full_width := 2, full_height := 2,
    tile_width := 2, tile_height := 2, tile_depth := 1, nchannels := 1,
    attributes := [] }

/-- The 2 by 2 texel pattern of spec scenario 3: 0 on the main diagonal,
1 off it. -/
def tex2 : Int → Int → Int → ℚ := fun x y _ =>
  if (x = 0 ∧ y = 0) ∨ (x = 1 ∧ y = 1) then 0 else 1

/-- Options for the bilinear scenario: one channel starting at 0, black
wrap, fill 0.7 (exactly 7/10 in this rational embedding; the float value
only matters through the branch it selects). -/
def optsB : TextureOpts :=
  { firstchannel := 0, nchannels := 1, swrap := .WrapBlack,
    twrap := .WrapBlack, fill := fun _ => 7/10, alphaSet := false,
    actualchannels := 1 }

/-- An all-nines result buffer, to make untouched slots visible. -/
def res9 : Nat → ℚ := fun _ => 9

/-- An all-nines alpha buffer. -/
def alpha9 : Int → ℚ := fun _ => 9

/-- A spec whose single tile holds 4096 by 4096 texels of 4 float
channels: a 256 MiB tile buffer. -/
def bigSpec : ImageSpec :=
  { width := 8192, height := 8192, depth := 1, full_width := 8192,
    full_height := 8192, tile_width := 4096, tile_height := 4096,
    tile_depth := 1, nchannels := 4, attributes := [] }

/-- The empty tile cache with the default 50 MiB budget (init(),
texfile.cpp line 345). -/
def st0 : TileCacheState := { tilecache := [], max_memory_MB := 50 }

/-- Origin tile of bigSpec. -/
def idA : TileID := ⟨0, 0, 0, 0, 0⟩

/-- The tile right of the origin tile of bigSpec. -/
def idB : TileID := ⟨0, 0, 4096, 0, 0⟩

/-- A registry holding two open, recently used files, over a budget of
one open file, with the sweep cursor on the first entry. -/
def badReg : Registry :=
  { files := [⟨true, true⟩, ⟨true, true⟩], open_files := 2,
    max_open_files := 1, sweep := 0 }

/-- The state badReg reaches after two sweep iterations: the first entry
is closed, the second is untouched, one file is still open, and the
cursor still sits on the first entry.  It is a fixpoint of the sweep. -/
def stuckReg : Registry :=
  { files := [⟨false, false⟩, ⟨true, true⟩], open_files := 1,
    max_open_files := 1, sweep := 0 }

/-
  C1 and C2.
-/

/-- Helper: one sweep iteration leaves stuckReg unchanged. -/
theorem sweepStep_stuckReg : sweepStep stuckReg = stuckReg := by decide

/-- Helper: the check_max_files loop never exits from stuckReg. -/
theorem check_max_files_stuck :
    ∀ n, check_max_files_fuel n stuckReg = none := by
  intro n
  induction n with
  | zero => rfl
  | succ m ih =>
    simp only [check_max_files_fuel]
    rw [if_pos (by decide), sweepStep_stuckReg]
    exact ih

/-- C1: the claim says find_tile runs the memory check before inserting a
missed tile and that the cache-only bytes stay at or below
max_memory_MB * 2^20 after each call.  The source (texfile.cpp, lines
388-403) performs no memory accounting at all: after two misses on 256
MiB tiles, even discounting the tile the second call just returned to
its caller, the cached bytes exceed the default 50 MiB budget; and
find_tile never shrinks the cache on any input. -/
theorem find_tile_unbounded_growth :
    (cacheBytes (find_tile bigSpec (find_tile bigSpec st0 idA).2 idB).2
       - (find_tile bigSpec (find_tile bigSpec st0 idA).2 idB).1.size
       > st0.max_memory_MB * 2 ^ 20)
    ∧ ∀ (spec : ImageSpec) (st : TileCacheState) (id : TileID),
        cacheBytes st ≤ cacheBytes (find_tile spec st id).2 := by
  constructor
  · decide
  · intro spec st id
    unfold find_tile
    cases h : cacheFind st id with
    | some t => simp
    | none => simp [cacheBytes, Nat.le_add_left]

/-- C2: the claim says the check_max_files loop advances the sweep cursor
each iteration and terminates from every registry state with at least one
open file and a positive bound.  The source loop (texfile.cpp, lines
378-384) never advances the cursor: from badReg (two open files, budget
one, cursor on the first entry) the first two iterations close the first
file, after which every further release of that same entry is a no-op
while open_files stays at the bound, so the loop runs forever — no
amount of fuel makes it exit. -/
theorem check_max_files_nonterminating :
    ∀ n, check_max_files_fuel n badReg = none := by
  intro n
  match n with
  | 0 => rfl
  | 1 => rfl
  | (m + 2) =>
    have h : check_max_files_fuel (m + 2) badReg =
        check_max_files_fuel m stuckReg := rfl
    rw [h]
    exact check_max_files_stuck m

/-
  C3, C4, C5.
-/

/-- Options for the missing-file scenario: one channel, fill 0.25, no
alpha output. -/
def optsM : TextureOpts :=
  { firstchannel := 0, nchannels := 1, swrap := .WrapDefault,
    twrap := .WrapDefault, fill := fun _ => 1/4, alphaSet := false,
    actualchannels := 0 }

/-- Runflags with only lane 1 active. -/
def rfLane1 : Int → Bool := fun i => i == 1

/-- An all-zero varying coordinate. -/
def zeroRef : Int → ℚ := fun _ => 0

/-- C3: the claim says that on a missing or broken file every active
lane i gets its fill at result[i * C + c] and no other result entry is
written.  In the source loop (texfile.cpp, lines 484-492) the result
pointer starts at the buffer base and advances by nchannels on every
iteration from firstactive, so lane i writes at
(i - firstactive) * C + c instead: with firstactive = lastactive = 1,
C = 1 and fill 0.25, the fill lands in result[0] while the claimed slot
result[1] keeps its prior value 9. -/
theorem texture_broken_fill_misindexed :
    ((texture none optsM rfLane1 1 1 zeroRef zeroRef res9 alpha9).2.1 0
       = 1/4)
    ∧ ((texture none optsM rfLane1 1 1 zeroRef zeroRef res9 alpha9).2.1 1
       = 9) := by
  constructor <;>
    norm_num [texture, brokenLanes, fillFrom, upd, updI, optsM, rfLane1,
      res9, alpha9]

/-- C4: the claim says a Black-wrap lookup at (s, t) = (-0.1, 0.5) with
fill 0.7 yields result[0] = 0.7.  The source ignores wrap modes entirely
(texfile.cpp, line 591: wrap not implemented) and stores the constant 1
for any out-of-range integer coordinate (lines 592-595): the lookup
returns 1, not the fill 7/10. -/
theorem texture_lookup_black_wrap_ignored :
    ((texture_lookup spec2 tex2 optsB 0 (-1/10) (1/2) 0 res9 alpha9).1 0
       = 1)
    ∧ (1 : ℚ) ≠ 7/10 := by
  constructor
  · norm_num [texture_lookup, upd, copyChannels, tileData, floorQ, spec2,
      tex2, optsB, res9, alpha9]
    decide
  · norm_num

/-- C5: the claim says texture_lookup blends the four surrounding texels
bilinearly, so the 2 by 2 checker sampled at (0.5, 0.5) yields 0.5.  The
source placeholder (texfile.cpp, lines 573-615) computes the fractional
offsets but never uses them: it copies the single texel at
(sint, tint) = (0, 0), whose value is 0, not 0.5. -/
theorem texture_lookup_no_bilinear_blend :
    ((texture_lookup spec2 tex2 optsB 0 (1/2) (1/2) 0 res9 alpha9).1 0
       = 0)
    ∧ (0 : ℚ) ≠ 1/2 := by
  constructor
  · norm_num [texture_lookup, upd, copyChannels, tileData, floorQ, spec2,
      tex2, optsB, res9, alpha9]
    decide
  · norm_num

/-
  C6.
-/

/-- An int-typed metadata attribute with one value, 7. -/
def attrFoo : ImageIOParameter := ⟨"foo", .PT_INT, 1, [.ival 7]⟩

/-- A float-typed metadata attribute with one value, 5. -/
def attrBar : ImageIOParameter := ⟨"bar", .PT_FLOAT, 1, [.fval 5]⟩

/-- A spec carrying the two attributes above. -/
def specAttrs : ImageSpec :=
  { width := 4, height := 4, depth := 1, full_width := 4, full_height := 4,
    tile_width := 4, tile_height := 4, tile_depth := 1, nchannels := 3,
    attributes := [attrFoo, attrBar] }

/-- C6: the claim says an int-stored attribute requested as float is
converted and true returned.  The guard at texfile.cpp line 459 is
reversed with respect to the comment above it: it accepts stored FLOAT
with requested INT.  Hence requesting the int attribute foo as float
falls through and returns false with nothing written (first conjunct),
while the exact-type request works (second conjunct) and the reversed
direction — float stored, int requested — is the one that returns true,
reinterpreting the float bit patterns as ints (third conjunct). -/
theorem gettextureinfo_int_to_float_rejected :
    gettextureinfo true false TexFormat.TexFormatTexture specAttrs "foo"
      ⟨PBaseType.PT_FLOAT, 1⟩ = GetInfoResult.notfound
    ∧ gettextureinfo true false TexFormat.TexFormatTexture specAttrs "foo"
        ⟨PBaseType.PT_INT, 1⟩ = GetInfoResult.written [AttrVal.ival 7]
    ∧ gettextureinfo true false TexFormat.TexFormatTexture specAttrs "bar"
        ⟨PBaseType.PT_INT, 1⟩
      = GetInfoResult.writtenReinterp [AttrVal.fval 5] := by
  refine ⟨?_, ?_, ?_⟩ <;> decide

/-
  C7.
-/

/-- An environment whose reader resolves and opens, yielding spec2. -/
def envGood : OpenEnv :=
  { create_ok := true, open_ok := true, firstSpec := spec2,
    restSpecs := [], format_name := "tiff" }

/-- An environment in which no reader accepts the file. -/
def envNoReader : OpenEnv :=
  { create_ok := false, open_ok := false, firstSpec := spec2,
    restSpecs := [], format_name := "tiff" }

/-- A TextureFile whose first open failed: broken, no reader. -/
def brokenTF : TextureFile := newTextureFile envNoReader

/-- A TextureFile that opened successfully and was then closed by two
release passes of the sweep: reader gone, metadata retained. -/
def closedTF : TextureFile := release (release (newTextureFile envGood))

/-- C7: the claim says read_tile on a Broken file returns failure without
crashing.  The source (texfile.cpp, lines 282-291) calls open(), which
returns immediately on a broken file without producing a reader, and
then dereferences the null m_input: a crash, not a failure return (first
conjunct).  The second half of the claim does hold: on a file previously
closed by the sweep the call transparently reopens the reader and
returns the reader outcome (second and third conjuncts). -/
theorem read_tile_broken_crashes :
    (read_tile envGood true 0 brokenTF).1 = ReadResult.crash
    ∧ (read_tile envGood true 0 closedTF).1 = ReadResult.ret true
    ∧ (read_tile envGood true 0 closedTF).2.input.isSome = true := by
  refine ⟨?_, ?_, ?_⟩ <;> decide

/-
  C8.
-/

/-- A one-valued string attribute declaring a cube-face environment. -/
def cubeAttr : ImageIOParameter :=
  ⟨"textureformat", .PT_STRING, 1, [.sval "CubeFace Environment"]⟩

/-- A cube-face environment spec whose dimensions (5 by 7 around a 2 by
2 base tile) match neither the 3w by 2h nor the w by 6h layout. -/
def specCubeOdd : ImageSpec :=
  { width := 5, height := 7, depth := 1, full_width := 2, full_height := 2,
    tile_width := 2, tile_height := 2, tile_depth := 1, nchannels := 3,
    attributes := [cubeAttr] }

/-- Environment for the first open of the odd-sized cube file. -/
def envCubeOdd : OpenEnv :=
  { create_ok := true, open_ok := true, firstSpec := specCubeOdd,
    restSpecs := [], format_name := "tiff" }

/-- A cube-face environment spec of size 3w by 2h (w = h = 2). -/
def specCube32 : ImageSpec :=
  { width := 6, height := 4, depth := 1, full_width := 2, full_height := 2,
    tile_width := 2, tile_height := 2, tile_depth := 1, nchannels := 3,
    attributes := [cubeAttr] }

/-- Environment for the first open of the 3 by 2 cube file. -/
def envCube32 : OpenEnv :=
  { create_ok := true, open_ok := true, firstSpec := specCube32,
    restSpecs := [], format_name := "tiff" }

/-- C8 counterexample: the claim says the first open sets the cube
layout to Unknown whenever the spec size matches neither 3w by 2h nor w
by 6h.  Opening the odd-sized cube file sets the layout to the sentinel
CubeLast (texfile.cpp, line 262), which is a different enumerator from
CubeUnknown (the never-examined constructor default of line 171). -/
theorem cubelayout_else_not_unknown_cex :
    (newTextureFile envCubeOdd).cubelayout ≠ CubeLayout.CubeUnknown
    ∧ (newTextureFile envCubeOdd).cubelayout = CubeLayout.CubeLast := by
  refine ⟨?_, ?_⟩ <;> decide

/-- C8 amended: on the first successful open of a cube-face environment
file, with w and h the per-axis maxima of the full and tile dimensions,
the layout becomes ThreeByTwo for a 3w by 2h spec, OneBySix for a w by
6h spec, and the sentinel CubeLast — not CubeUnknown — in every other
case. -/
theorem cubelayout_detection (env : OpenEnv) (f : TextureFile)
    (h1 : f.input = none) (h2 : f.broken = false) (h3 : f.spec = [])
    (h4 : env.create_ok = true) (h5 : env.open_ok = true)
    (h6 : decode_texformat env.firstSpec = TexFormat.TexFormatCubeFaceEnv) :
    (openOp env f).cubelayout =
      (if env.firstSpec.width
            = 3 * max env.firstSpec.full_width env.firstSpec.tile_width
          ∧ env.firstSpec.height
            = 2 * max env.firstSpec.full_height env.firstSpec.tile_height
       then CubeLayout.CubeThreeByTwo
       else if env.firstSpec.width
                = max env.firstSpec.full_width env.firstSpec.tile_width
              ∧ env.firstSpec.height
                = 6 * max env.firstSpec.full_height env.firstSpec.tile_height
            then CubeLayout.CubeOneBySix
            else CubeLayout.CubeLast) := by
  unfold openOp
  simp [h1, h2, h3, h4, h5, h6]

/-- C8 witness: the amended theorem applied to the 3 by 2 cube file. -/
theorem cubelayout_detection_witness :
    (openOp envCube32 freshFile).cubelayout = CubeLayout.CubeThreeByTwo :=
  by
  have h := cubelayout_detection envCube32 freshFile rfl rfl rfl rfl rfl
    (by decide)
  simpa using h

/-
  C9.
-/

/-- The state invariant of the claim: a broken file holds no reader. -/
def fileInv (f : TextureFile) : Prop := f.broken = true → f.input = none

/-- Helper: open() on a broken file returns it unchanged (texfile.cpp,
lines 192-193). -/
theorem openOp_broken_id (env : OpenEnv) (f : TextureFile)
    (h : f.broken = true) : openOp env f = f := by
  unfold openOp
  cases hI : f.input.isSome <;> simp [hI, h]

/-- Helper: open() on an already-open file returns it unchanged
(texfile.cpp, lines 190-191). -/
theorem openOp_already_open (env : OpenEnv) (f : TextureFile)
    (h : f.input.isSome = true) : openOp env f = f := by
  unfold openOp
  simp [h]

/-- Helper: when the reader resolves and opens, open() leaves the broken
flag as it was. -/
theorem openOp_broken_eq_of_ok (env : OpenEnv) (f : TextureFile)
    (hc : env.create_ok = true) (ho : env.open_ok = true) :
    (openOp env f).broken = f.broken := by
  unfold openOp
  split
  · rfl
  · split
    · rfl
    · rw [if_neg (by simp [hc]), if_neg (by simp [ho])]
      dsimp only
      split <;> rfl

/-- Helper: open() preserves the invariant. -/
theorem openOp_fileInv (env : OpenEnv) (f : TextureFile)
    (h : fileInv f) : fileInv (openOp env f) := by
  cases hI : f.input with
  | some r =>
    rw [openOp_already_open env f (by rw [hI]; rfl)]
    exact h
  | none =>
    cases hB : f.broken with
    | true =>
      rw [openOp_broken_id env f hB]
      exact h
    | false =>
      cases hc : env.create_ok with
      | false =>
        unfold openOp fileInv
        simp [hI, hB, hc]
      | true =>
        cases ho : env.open_ok with
        | false =>
          unfold openOp fileInv
          simp [hI, hB, hc, ho]
        | true =>
          intro hfalse
          rw [openOp_broken_eq_of_ok env f hc ho, hB] at hfalse
          simp at hfalse

/-- Helper: open() never clears the broken flag. -/
theorem openOp_broken_mono (env : OpenEnv) (f : TextureFile)
    (h : f.broken = true) : (openOp env f).broken = true := by
  rw [openOp_broken_id env f h]
  exact h

/-- Helper: release() keeps the broken flag. -/
theorem release_broken_eq (f : TextureFile) :
    (release f).broken = f.broken := by
  unfold release
  split
  · rfl
  · split <;> rfl

/-- Helper: release() preserves the invariant. -/
theorem release_fileInv (f : TextureFile) (h : fileInv f) :
    fileInv (release f) := by
  unfold release fileInv at *
  split
  · exact h
  · split
    · simp
    · exact h

/-- Helper: the state left by read_tile preserves the invariant. -/
theorem read_tile_fileInv (env : OpenEnv) (ok : Bool) (lvl : Int)
    (f : TextureFile) (h : fileInv f) :
    fileInv (read_tile env ok lvl f).2 := by
  unfold read_tile
  have h2 := openOp_fileInv env f h
  cases hgi : (openOp env f).input with
  | none => simpa [hgi] using h2
  | some r =>
    simp only [hgi]
    intro hb
    have hgb : (openOp env f).broken = true := by
      revert hb
      split <;> simp
    rw [h2 hgb] at hgi
    cases hgi

/-- Helper: read_tile never clears the broken flag. -/
theorem read_tile_broken_mono (env : OpenEnv) (ok : Bool) (lvl : Int)
    (f : TextureFile) (h : f.broken = true) :
    (read_tile env ok lvl f).2.broken = true := by
  unfold read_tile
  rw [openOp_broken_id env f h]
  cases hI : f.input with
  | none => simp only [hI]; exact h
  | some r => simp only [hI]; split <;> simp [h]

/-- Helper: every operation preserves the invariant. -/
theorem fileStep_fileInv (op : FileOp) (f : TextureFile)
    (h : fileInv f) : fileInv (fileStep op f) := by
  cases op with
  | openO env => exact openOp_fileInv env f h
  | readTileO env ok lvl => exact read_tile_fileInv env ok lvl f h
  | releaseO => exact release_fileInv f h

/-- Helper: no operation clears the broken flag. -/
theorem fileStep_broken_mono (op : FileOp) (f : TextureFile)
    (h : f.broken = true) : (fileStep op f).broken = true := by
  cases op with
  | openO env => exact openOp_broken_mono env f h
  | readTileO env ok lvl => exact read_tile_broken_mono env ok lvl f h
  | releaseO =>
    show (release f).broken = true
    rw [release_broken_eq]
    exact h

/-- Helper: runs preserve the invariant. -/
theorem runOps_fileInv (ops : List FileOp) (f : TextureFile)
    (h : fileInv f) : fileInv (runOps ops f) := by
  induction ops generalizing f with
  | nil => exact h
  | cons op rest ih => exact ih (fileStep op f) (fileStep_fileInv op f h)

/-- Helper: runs never clear the broken flag. -/
theorem runOps_broken_mono (ops : List FileOp) (f : TextureFile)
    (h : f.broken = true) : (runOps ops f).broken = true := by
  induction ops generalizing f with
  | nil => exact h
  | cons op rest ih => exact ih (fileStep op f) (fileStep_broken_mono op f h)

/-- C9: over every sequence of open, read_tile and release operations
from a state where broken implies no reader (the constructor state and
everything reachable from it satisfy this): after the run, broken still
implies no reader; a file broken at the start is still broken at the
end (broken is never cleared — open() on a broken file returns without
retrying); and open() on an already-open file returns the state
unchanged, without reopening. -/
theorem texturefile_state_invariants (ops : List FileOp)
    (f : TextureFile) (h : fileInv f) :
    ((runOps ops f).broken = true → (runOps ops f).input = none)
    ∧ (f.broken = true → (runOps ops f).broken = true)
    ∧ (∀ (env : OpenEnv) (g : TextureFile), g.input.isSome = true →
        openOp env g = g) :=
  ⟨runOps_fileInv ops f h,
   fun hb => runOps_broken_mono ops f hb,
   fun env g hg => openOp_already_open env g hg⟩

/-- C9 witness: the invariants instantiated on a run that tries to
reopen, read and release a broken file. -/
theorem texturefile_state_invariants_witness :
    (((runOps [FileOp.openO envGood,
               FileOp.readTileO envGood true 0,
               FileOp.releaseO] brokenTF).broken = true →
      (runOps [FileOp.openO envGood,
               FileOp.readTileO envGood true 0,
               FileOp.releaseO] brokenTF).input = none)
     ∧ (brokenTF.broken = true →
        (runOps [FileOp.openO envGood,
                 FileOp.readTileO envGood true 0,
                 FileOp.releaseO] brokenTF).broken = true)
     ∧ (∀ (env : OpenEnv) (g : TextureFile), g.input.isSome = true →
         openOp env g = g)) :=
  texturefile_state_invariants
    [FileOp.openO envGood, FileOp.readTileO envGood true 0,
     FileOp.releaseO] brokenTF (fun _ => rfl)

/-
  C10.
-/

/-- C10: texture() on a resolved, non-broken file hands back a mutated
options record (the C++ writes through its reference parameter, so the
caller observes these values afterwards): a Default swrap or twrap is
replaced by the wrap declared by the file, actualchannels becomes
clamp(spec.nchannels - firstchannel, 0, nchannels), and when an alpha
output is set but the file lacks the alpha channel
(actualchannels + 1 < nchannels) the alpha reference is nulled
(texfile.cpp, lines 496-519). -/
theorem texture_mutates_options (f : TextureFileView) (opts : TextureOpts)
    (runflags : Int → Bool) (firstactive lastactive : Int)
    (s t : Int → ℚ) (result : Nat → ℚ) (alphaBuf : Int → ℚ)
    (hb : f.broken = false) :
    ((texture (some f) opts runflags firstactive lastactive s t result
        alphaBuf).1.swrap
      = (if opts.swrap = Wrap.WrapDefault then f.swrap else opts.swrap))
    ∧ ((texture (some f) opts runflags firstactive lastactive s t result
          alphaBuf).1.twrap
        = (if opts.twrap = Wrap.WrapDefault then f.twrap else opts.twrap))
    ∧ ((texture (some f) opts runflags firstactive lastactive s t result
          alphaBuf).1.actualchannels
        = iclamp (f.spec.nchannels - opts.firstchannel) 0 opts.nchannels)
    ∧ ((texture (some f) opts runflags firstactive lastactive s t result
          alphaBuf).1.alphaSet
        = (if opts.alphaSet = true
              ∧ iclamp (f.spec.nchannels - opts.firstchannel) 0
                  opts.nchannels + 1 < opts.nchannels
           then false else opts.alphaSet)) := by
  refine ⟨?_, ?_, ?_, ?_⟩ <;>
    (simp only [texture]
     rw [if_neg (by simp [hb])]
     split <;> split <;> simp_all)

/-- A non-broken file view over the 2 by 2 texture, declaring periodic
and clamp wraps. -/
def fileVW : TextureFileView :=
  { broken := false, swrap := .WrapPeriodic, twrap := .WrapClamp,
    spec := spec2, tex := tex2 }

/-- Options asking two channels of the one-channel file with an alpha
output and a Default s wrap. -/
def optsW : TextureOpts :=
  { firstchannel := 0, nchannels := 2, swrap := .WrapDefault,
    twrap := .WrapBlack, fill := fun _ => 0, alphaSet := true,
    actualchannels := 0 }

/-- C10 witness: the mutation theorem instantiated on the 2 by 2 file. -/
theorem texture_mutates_options_witness :
    ((texture (some fileVW) optsW rfLane1 0 0 zeroRef zeroRef res9
        alpha9).1.swrap
      = (if optsW.swrap = Wrap.WrapDefault then fileVW.swrap
         else optsW.swrap))
    ∧ ((texture (some fileVW) optsW rfLane1 0 0 zeroRef zeroRef res9
          alpha9).1.twrap
        = (if optsW.twrap = Wrap.WrapDefault then fileVW.twrap
           else optsW.twrap))
    ∧ ((texture (some fileVW) optsW rfLane1 0 0 zeroRef zeroRef res9
          alpha9).1.actualchannels
        = iclamp (fileVW.spec.nchannels - optsW.firstchannel) 0
            optsW.nchannels)
    ∧ ((texture (some fileVW) optsW rfLane1 0 0 zeroRef zeroRef res9
          alpha9).1.alphaSet
        = (if optsW.alphaSet = true
              ∧ iclamp (fileVW.spec.nchannels - optsW.firstchannel) 0
                  optsW.nchannels + 1 < optsW.nchannels
           then false else optsW.alphaSet)) :=
  texture_mutates_options fileVW optsW rfLane1 0 0 zeroRef zeroRef res9
    alpha9 rfl

end TexSys
